import Mathlib

/-!
Verification of the InkyPi Waveshare display driver abstraction layer
(`src/display/waveshare_display.py`) against its specification.

The Python source is shallowly embedded below.  Pure helpers become Lean
functions; the stateful render lifecycle (`WaveshareDisplay.display_image`)
becomes an explicit state-passing function that also records the trace of
hardware operations it invokes and models each hardware call as fallible.
External collaborators (PIL's quantizer, the vendor driver objects, the
configuration store) are modelled as parameters or explicit data, matching
the spec's "external interfaces" section.
-/

/- ### Bit-plane encoder: `split_image_for_bi_color_epd` -/

/-- An RGB pixel. -/
abbrev Pixel := ℕ × ℕ × ℕ

/-- An RGB raster, row major. -/
abbrev RgbImage := List (List Pixel)

/-- A palette-indexed raster (mode `P`): each entry is a palette index. -/
abbrev IndexImage := List (List ℕ)

/-- The fixed 3-entry palette `[*black, *white, *red]` built in
`split_image_for_bi_color_epd` (indices 0 = black, 1 = white, 2 = red). -/
def epd_palette : List Pixel := [(0, 0, 0), (255, 255, 255), (255, 0, 0)]

/-- The `point` callback for the black layer:
`lambda p: 0 if p == 0 else 1`. -/
def black_point_fn (p : ℕ) : ℕ := if p = 0 then 0 else 1

/-- The `point` callback for the red layer:
`lambda p: 0 if p == 2 else 1`. -/
def red_point_fn (p : ℕ) : ℕ := if p = 2 then 0 else 1

/-- `split_image_for_bi_color_epd(image)`.  PIL's
`image.quantize(palette=..., dither=FLOYDSTEINBERG)` is an external-library
call; it is modelled by the function argument `quantize`, which maps the RGB
raster to the palette-indexed raster.  The two 1-bit layers are then derived
exactly as in the source via `indexed_img.point`. -/
def split_image_for_bi_color_epd (quantize : RgbImage → IndexImage)
    (image : RgbImage) : IndexImage × IndexImage :=
  let indexed_img := quantize image
  let black_layer := indexed_img.map (List.map black_point_fn)
  let red_layer := indexed_img.map (List.map red_point_fn)
  (black_layer, red_layer)

/-- Pixel lookup in a row-major raster, `none` when out of bounds. -/
def pixAt (m : IndexImage) (i j : ℕ) : Option ℕ :=
  (m[i]?).bind fun row => row[j]?

/- ### Capability probe: `len(inspect.getfullargspec(display).args) > 2` -/

/-- One formal parameter of a Python function: its name and whether it has a
default value. -/
structure PyParam where
  name : String
  hasDefault : Bool
deriving DecidableEq, Repr

/-- The formal parameter list of a driver's `display` method.  `args` are the
positional-or-keyword parameters in declaration order (the instance receiver
`self` first); `kwonly` are keyword-only parameters (declared after `*`). -/
structure DisplaySig where
  args : List PyParam
  kwonly : List PyParam
deriving DecidableEq, Repr

/-- `inspect.getfullargspec(f).args`: the names of all positional-or-keyword
parameters, including those that carry a default value (defaults are reported
separately, in `.defaults`); keyword-only parameters are excluded. -/
def fullargspec_args (sig : DisplaySig) : List String :=
  sig.args.map PyParam.name

/-- `self.bi_color_display = len(display_args_spec.args) > 2`:
`true` classifies the panel as DualPlane, `false` as Mono. -/
def bi_color_display_of (sig : DisplaySig) : Bool :=
  (fullargspec_args sig).length > 2

/-- Number of parameters of `display` that must be supplied positionally
(no default value). -/
def requiredArgCount (sig : DisplaySig) : ℕ :=
  (sig.args.filter fun p => !p.hasDefault).length

/-- A driver's `display` accepts a single-buffer call (the Mono calling
convention `display(self, buf)`) when, beyond the receiver, exactly one
positional argument is required and at least one can be passed. -/
def acceptsSingleBufferCall (sig : DisplaySig) : Bool :=
  requiredArgCount sig ≤ 2 && sig.args.length ≥ 2 &&
    (sig.kwonly.filter fun p => !p.hasDefault).length = 0

/- ### Driver resolver: binding the init entry point -/

/-- A Python attribute value, as far as the resolver observes it: an identity
(so theorems can speak about which attribute got bound) and whether
`callable(·)` holds for it. -/
structure PyAttr where
  id : String
  callable : Bool
deriving DecidableEq, Repr

/-- The attribute surface of a vendor `EPD` driver instance that the init
resolver consults; `none` models an absent attribute (`getattr` default). -/
structure EpdDriver where
  init_fast : Option PyAttr
  Init : Option PyAttr
  init : Option PyAttr
deriving DecidableEq, Repr

/-- Errors surfaced by `initialize_display` / `display_image`, under the
spec's taxonomy names. `IncompatibleDriver` is the
`ValueError("Display does not support required methods: ...")` raised when
the `AttributeError("No Init/init method found")` is caught. -/
inductive DriverError where
  | IncompatibleDriver
deriving DecidableEq, Repr

/-- `getattr(obj, name, default)` with an optional attribute slot. -/
def pygetattr (slot : Option PyAttr) (default : Option PyAttr) : Option PyAttr :=
  match slot with
  | some a => some a
  | none => default

/-- The nested `getattr` chain of `initialize_display` that selects a
candidate init attribute: for `display_type == "epd7in5_V2"` it is
`getattr(epd, "init_fast", getattr(epd, "Init", getattr(epd, "init", None)))`,
otherwise `getattr(epd, "Init", getattr(epd, "init", None))`. -/
def resolve_init_attr (display_type : String) (d : EpdDriver) : Option PyAttr :=
  if display_type = "epd7in5_V2" then
    pygetattr d.init_fast (pygetattr d.Init (pygetattr d.init none))
  else
    pygetattr d.Init (pygetattr d.init none)

/-- The init-binding step of `initialize_display`: resolve the candidate
attribute, then `if not callable(self.epd_display_init): raise ...`
(note that `callable(None)` is `False`). -/
def bind_init (display_type : String) (d : EpdDriver) :
    Except DriverError PyAttr :=
  match resolve_init_attr display_type d with
  | none => .error .IncompatibleDriver
  | some a => if a.callable then .ok a else .error .IncompatibleDriver

/-- Modelled from the spec: the spec's own description of the resolver
("The first callable found is bound as the canonical init entry point; if
none is callable, signal IncompatibleDriver") — the candidates in priority
order are scanned for the first *callable* one.  Stated only to compare with
`bind_init`, which is the code's behaviour. -/
def bind_init_spec (display_type : String) (d : EpdDriver) :
    Except DriverError PyAttr :=
  let candidates :=
    if display_type = "epd7in5_V2" then [d.init_fast, d.Init, d.init]
    else [d.Init, d.init]
  match (candidates.filterMap id).filter PyAttr.callable with
  | a :: _ => .ok a
  | [] => .error .IncompatibleDriver

/- ### Resolution auto-discovery -/

/-- `resolution = [w, h] if w >= h else [h, w]` from `initialize_display`. -/
def normalize_resolution (w h : ℕ) : ℕ × ℕ :=
  if w ≥ h then (w, h) else (h, w)

/-- The resolution auto-discovery step: if the configuration has no
resolution (`if not self.device_config.get_config("resolution")`), the
normalized native resolution is written (`update_value(..., write=True)`);
otherwise nothing is written.  Returns the configuration's resolution after
the step and whether a write occurred. -/
def discover_resolution (configured : Option (ℕ × ℕ)) (w h : ℕ) :
    Option (ℕ × ℕ) × Bool :=
  match configured with
  | some r => (some r, false)
  | none => (some (normalize_resolution w h), true)

/- ### Power/refresh lifecycle: `display_image` -/

/-- `self._full_clear_interval_s = 60 * 60` set by `initialize_display`. -/
def full_clear_interval_s : ℕ := 60 * 60

/-- A hardware operation invoked on the vendor driver during a render.
`display n` is a call to the driver's `display` routine pushing `n` device
buffers (1 on the Mono path, 2 on the DualPlane path). -/
inductive HwOp where
  | init
  | clear
  | display (nbuf : ℕ)
  | sleep
deriving DecidableEq, Repr

/-- Errors surfaced by `display_image`: `InvalidInput` is the
`ValueError("No image provided.")`; `HardwareIOFailure` models any exception
raised by an underlying driver call, which propagates uncaught. -/
inductive RenderError where
  | InvalidInput
  | HardwareIOFailure
deriving DecidableEq, Repr

/-- Fault injection for the fallible hardware calls made by `display_image`,
in the order the source makes them: the wake-up `epd_display_init()`, the
`Clear()`, the post-clear `epd_display_init()`, the `display(...)` push and
the final `sleep()`. -/
structure FaultSpec where
  initFails : Bool
  clearFails : Bool
  reinitFails : Bool
  displayFails : Bool
  sleepFails : Bool
deriving DecidableEq, Repr

/-- The all-succeed fault specification. -/
def noFaults : FaultSpec := ⟨false, false, false, false, false⟩

instance exceptDecEq {e a : Type} [DecidableEq e] [DecidableEq a] :
    DecidableEq (Except e a) := fun x y =>
  match x, y with
  | .ok v, .ok w =>
    match decEq v w with
    | isTrue h => isTrue (h ▸ rfl)
    | isFalse h => isFalse fun hh => h (Except.ok.inj hh)
  | .ok _, .error _ => isFalse fun h => Except.noConfusion h
  | .error _, .ok _ => isFalse fun h => Except.noConfusion h
  | .error v, .error w =>
    match decEq v w with
    | isTrue h => isTrue (h ▸ rfl)
    | isFalse h => isFalse fun hh => h (Except.error.inj hh)

/-- Outcome of one `display_image` call: the trace of hardware operations
that were invoked (in order), the value of `self._last_full_clear_monotonic`
when the call returns or raises, and the call's result. -/
structure RenderOutcome where
  trace : List HwOp
  lastFullClear : Option ℤ
  result : Except RenderError Unit
deriving DecidableEq, Repr

/-- The full-clear throttle condition of `display_image`:
`self._last_full_clear_monotonic is None or
 (now - self._last_full_clear_monotonic) >= self._full_clear_interval_s`.
Monotonic timestamps are modelled as exact integers (the throttle
comparison is pure arithmetic on them). -/
def should_full_clear (interval now : ℤ) (last : Option ℤ) : Bool :=
  match last with
  | none => true
  | some t => interval ≤ now - t

/-- `WaveshareDisplay.display_image(image)`, embedded over explicit state.
`last` is `self._last_full_clear_monotonic` on entry and `now` the value
`time.monotonic()` returns during the call.  An exception from a hardware
call aborts the call at that point, exactly as in Python; in particular
`self._last_full_clear_monotonic = now` executes only after both `Clear()`
and the post-clear reinit returned. -/
def display_image (biColor : Bool) (interval now : ℤ) (last : Option ℤ)
    (image : Option RgbImage) (f : FaultSpec) : RenderOutcome :=
  let nbuf : ℕ := if biColor then 2 else 1
  match image with
  | none => ⟨[], last, .error .InvalidInput⟩
  | some _ =>
    if f.initFails then ⟨[.init], last, .error .HardwareIOFailure⟩
    else if should_full_clear interval now last then
      if f.clearFails then
        ⟨[.init, .clear], last, .error .HardwareIOFailure⟩
      else if f.reinitFails then
        ⟨[.init, .clear, .init], last, .error .HardwareIOFailure⟩
      else if f.displayFails then
        ⟨[.init, .clear, .init, .display nbuf], some now,
          .error .HardwareIOFailure⟩
      else if f.sleepFails then
        ⟨[.init, .clear, .init, .display nbuf, .sleep], some now,
          .error .HardwareIOFailure⟩
      else
        ⟨[.init, .clear, .init, .display nbuf, .sleep], some now, .ok ()⟩
    else
      if f.displayFails then
        ⟨[.init, .display nbuf], last, .error .HardwareIOFailure⟩
      else if f.sleepFails then
        ⟨[.init, .display nbuf, .sleep], last, .error .HardwareIOFailure⟩
      else
        ⟨[.init, .display nbuf, .sleep], last, .ok ()⟩

/-- Run a sequence of fault-free render calls at the given mock-monotonic
times, threading `_last_full_clear_monotonic`, and record for each call
whether a full clear was performed. -/
def render_clears (interval : ℤ) (last : Option ℤ) : List ℤ → List Bool
  | [] => []
  | t :: ts =>
    let r := display_image false interval t last (some [[(0, 0, 0)]]) noFaults
    (HwOp.clear ∈ r.trace : Bool) :: render_clears interval r.lastFullClear ts

/- ### Helper lemmas -/

theorem should_full_clear_iff (interval now : ℤ) (last : Option ℤ) :
    should_full_clear interval now last = true ↔
      (last = none ∨ ∃ t, last = some t ∧ interval ≤ now - t) := by
  cases last with
  | none => simp [should_full_clear]
  | some t => simp [should_full_clear]

theorem pixAt_map (f : ℕ → ℕ) (m : IndexImage) (i j : ℕ) :
    pixAt (m.map (List.map f)) i j = (pixAt m i j).map f := by
  unfold pixAt
  cases hm : m[i]? with
  | none => simp [hm]
  | some row => simp [hm]

theorem black_point_fn_eq_zero (p : ℕ) : black_point_fn p = 0 ↔ p = 0 := by
  unfold black_point_fn
  split <;> simp_all

theorem red_point_fn_eq_zero (p : ℕ) : red_point_fn p = 0 ↔ p = 2 := by
  unfold red_point_fn
  split <;> simp_all

/- ### Claim theorems -/

/-- C3: for every RGB input image (and every behaviour of the external
quantizer), the dark plane produced by `split_image_for_bi_color_epd` is 0
at exactly the pixels whose quantized palette index is 0 (black) and 1
elsewhere, the accent plane is 0 at exactly the pixels whose index is 2
(red/accent) and 1 elsewhere, and at no pixel are both planes 0. -/
theorem C3_dual_plane_masks (quantize : RgbImage → IndexImage)
    (image : RgbImage) (i j : ℕ) :
    (pixAt (split_image_for_bi_color_epd quantize image).1 i j = some 0 ↔
       pixAt (quantize image) i j = some 0) ∧
    (pixAt (split_image_for_bi_color_epd quantize image).2 i j = some 0 ↔
       pixAt (quantize image) i j = some 2) ∧
    ¬(pixAt (split_image_for_bi_color_epd quantize image).1 i j = some 0 ∧
      pixAt (split_image_for_bi_color_epd quantize image).2 i j = some 0) := by
  have hb : pixAt (split_image_for_bi_color_epd quantize image).1 i j =
      (pixAt (quantize image) i j).map black_point_fn := by
    unfold split_image_for_bi_color_epd
    exact pixAt_map black_point_fn (quantize image) i j
  have hr : pixAt (split_image_for_bi_color_epd quantize image).2 i j =
      (pixAt (quantize image) i j).map red_point_fn := by
    unfold split_image_for_bi_color_epd
    exact pixAt_map red_point_fn (quantize image) i j
  have hb0 : pixAt (split_image_for_bi_color_epd quantize image).1 i j = some 0 ↔
      pixAt (quantize image) i j = some 0 := by
    rw [hb]
    cases hq : pixAt (quantize image) i j with
    | none => simp
    | some p => simp [black_point_fn_eq_zero]
  have hr0 : pixAt (split_image_for_bi_color_epd quantize image).2 i j = some 0 ↔
      pixAt (quantize image) i j = some 2 := by
    rw [hr]
    cases hq : pixAt (quantize image) i j with
    | none => simp
    | some p => simp [red_point_fn_eq_zero]
  refine ⟨hb0, hr0, ?_⟩
  rintro ⟨h1, h2⟩
  have e1 := hb0.mp h1
  have e2 := hr0.mp h2
  rw [e1] at e2
  exact absurd (Option.some.inj e2) (by decide)

/-- C3 witness: on a concrete quantized raster `[[0, 1, 2]]` the dark plane
is 0 at the black pixel and the two planes are never both 0 there. -/
theorem C3_dual_plane_masks_witness :
    pixAt (split_image_for_bi_color_epd (fun _ => [[0, 1, 2]]) [[(0, 0, 0)]]).1 0 0 =
      some 0 ∧
    ¬(pixAt (split_image_for_bi_color_epd (fun _ => [[0, 1, 2]]) [[(0, 0, 0)]]).1 0 0 =
        some 0 ∧
      pixAt (split_image_for_bi_color_epd (fun _ => [[0, 1, 2]]) [[(0, 0, 0)]]).2 0 0 =
        some 0) :=
  ⟨(C3_dual_plane_masks (fun _ => [[0, 1, 2]]) [[(0, 0, 0)]] 0 0).1.mpr (by decide),
   (C3_dual_plane_masks (fun _ => [[0, 1, 2]]) [[(0, 0, 0)]] 0 0).2.2⟩

/-- C7: the DualPlane encoder is deterministic — two runs of
`split_image_for_bi_color_epd` on equal input rasters (against the one fixed
palette, for any fixed behaviour of the quantizer, which takes no random
seed) produce equal pairs of bit-planes. -/
theorem C7_encoder_deterministic (quantize : RgbImage → IndexImage)
    (raster1 raster2 : RgbImage) (h : raster1 = raster2) :
    split_image_for_bi_color_epd quantize raster1 =
      split_image_for_bi_color_epd quantize raster2 := by
  rw [h]

/-- C7 witness: determinism at a concrete raster and quantizer. -/
theorem C7_encoder_deterministic_witness :
    split_image_for_bi_color_epd (fun _ => [[0, 2]]) [[(0, 0, 0), (255, 0, 0)]] =
      split_image_for_bi_color_epd (fun _ => [[0, 2]]) [[(0, 0, 0), (255, 0, 0)]] :=
  C7_encoder_deterministic (fun _ => [[0, 2]]) _ _ rfl

/-- C1 counterexample: the driver signature `display(self, buf, mode=...)` —
a Mono driver, since a single-buffer call suffices (only one positional
argument beyond the receiver is required) — has `getfullargspec().args` of
length 3, so the probe classifies it as DualPlane: the classification does
not tolerate an extra optional positional parameter. -/
theorem C1_capability_probe_counterexample :
    acceptsSingleBufferCall
        ⟨[⟨"self", false⟩, ⟨"buf", false⟩, ⟨"mode", true⟩], []⟩ = true ∧
    bi_color_display_of
        ⟨[⟨"self", false⟩, ⟨"buf", false⟩, ⟨"mode", true⟩], []⟩ = true := by
  decide

/-- C1 amended: the probe classifies by the length of
`getfullargspec(display).args`, which counts every positional-or-keyword
parameter including those carrying defaults — greater than 2 means DualPlane,
otherwise Mono.  Extra keyword-only parameters never change the
classification, but a Mono driver whose `display` has an extra optional
positional parameter is misclassified as DualPlane. -/
theorem C1_capability_probe_amended (sig : DisplaySig) (extra : List PyParam) :
    (bi_color_display_of sig = decide (sig.args.length > 2)) ∧
    (bi_color_display_of ⟨sig.args, extra⟩ = bi_color_display_of sig) ∧
    (∃ monoSig : DisplaySig, acceptsSingleBufferCall monoSig = true ∧
      bi_color_display_of monoSig = true) := by
  refine ⟨?_, rfl, ?_⟩
  · simp [bi_color_display_of, fullargspec_args]
  · exact ⟨⟨[⟨"self", false⟩, ⟨"buf", false⟩, ⟨"mode", true⟩], []⟩,
      by decide, by decide⟩

/-- C4 counterexample: a driver whose `Init` attribute is present but not
callable while its `init` attribute is callable.  The code binds `Init` (the
first *present* candidate) and, finding it not callable, raises
IncompatibleDriver — although a callable candidate exists, which the claim
("the first callable found is bound") would have bound, as
`bind_init_spec` shows. -/
theorem C4_init_binding_counterexample :
    bind_init "epd7in3e"
        ⟨none, some ⟨"Init", false⟩, some ⟨"init", true⟩⟩ =
      .error .IncompatibleDriver ∧
    (⟨"init", true⟩ : PyAttr).callable = true ∧
    bind_init_spec "epd7in3e"
        ⟨none, some ⟨"Init", false⟩, some ⟨"init", true⟩⟩ =
      .ok ⟨"init", true⟩ := by
  decide

/-- C4 amended: the resolver probes in priority order — the fast variant
(consulted only for `"epd7in5_V2"`), then `Init`, then `init` — and binds the
first *present* attribute; only that bound attribute is checked for
callability: if it is not callable, or no candidate is present,
IncompatibleDriver is signalled, even when a lower-priority candidate is
callable.  Every successfully bound entry point is the resolved candidate
and is callable. -/
theorem C4_init_binding_amended (display_type : String) (d : EpdDriver) :
    (display_type ≠ "epd7in5_V2" →
      bind_init display_type d = bind_init display_type ⟨none, d.Init, d.init⟩) ∧
    (∀ a, d.init_fast = some a →
      bind_init "epd7in5_V2" d =
        (if a.callable then .ok a else .error .IncompatibleDriver)) ∧
    (∀ a, d.Init = some a → display_type ≠ "epd7in5_V2" →
      bind_init display_type d =
        (if a.callable then .ok a else .error .IncompatibleDriver)) ∧
    (d.Init = none → d.init = none → display_type ≠ "epd7in5_V2" →
      bind_init display_type d = .error .IncompatibleDriver) ∧
    (∀ a, d.Init = none → d.init = some a → display_type ≠ "epd7in5_V2" →
      bind_init display_type d =
        (if a.callable then .ok a else .error .IncompatibleDriver)) ∧
    (∀ a, bind_init display_type d = .ok a →
      resolve_init_attr display_type d = some a ∧ a.callable = true) := by
  obtain ⟨fa, ci, li⟩ := d
  refine ⟨?_, ?_, ?_, ?_, ?_, ?_⟩
  · intro hne
    simp [bind_init, resolve_init_attr, hne]
  · intro a hf
    simp only at hf
    simp [bind_init, resolve_init_attr, pygetattr, hf]
  · intro a hI hne
    simp only at hI
    cases ci with
    | none => exact absurd hI (by simp)
    | some b =>
      have hab : b = a := Option.some.inj hI
      subst hab
      simp [bind_init, resolve_init_attr, pygetattr, hne]
  · intro hI hi hne
    simp only at hI hi
    subst hI; subst hi
    simp [bind_init, resolve_init_attr, pygetattr, hne]
  · intro a hI hi hne
    simp only at hI hi
    subst hI
    cases li with
    | none => exact absurd hi (by simp)
    | some b =>
      have hab : b = a := Option.some.inj hi
      subst hab
      simp [bind_init, resolve_init_attr, pygetattr, hne]
  · intro a hok
    unfold bind_init at hok
    cases hres : resolve_init_attr display_type ⟨fa, ci, li⟩ with
    | none => rw [hres] at hok; exact absurd hok (by simp)
    | some b =>
      rw [hres] at hok
      by_cases hc : b.callable = true
      · simp [hc] at hok
        subst hok
        exact ⟨rfl, hc⟩
      · simp [hc] at hok

/-- C4 amended witness: with `Init` absent and a callable `init`, a
non-quirky model binds `init`; the fast variant is ignored for it. -/
theorem C4_init_binding_amended_witness :
    bind_init "epd2in13"
        ⟨some ⟨"init_fast", true⟩, none, some ⟨"init", true⟩⟩ =
      .ok ⟨"init", true⟩ := by
  have h := C4_init_binding_amended "epd2in13"
    ⟨some ⟨"init_fast", true⟩, none, some ⟨"init", true⟩⟩
  have h5 := h.2.2.2.2.1 ⟨"init", true⟩ rfl rfl (by decide)
  simpa using h5

/-- C2: on every fault-free render call, a full hardware clear is performed
iff no prior clear is recorded or the monotonic time elapsed since the last
recorded clear is at least the configured interval; when the clear is
performed the panel is reinitialized right after it and the new timestamp is
recorded, otherwise the clear is skipped and the record is unchanged.  The
configured default interval is 3600 seconds, and for renders at
mock-monotonic times [0, 1000, 3700] with interval 3600 a clear occurs at
t = 0 and t = 3700 but not at t = 1000. -/
theorem C2_full_clear_throttle :
    (∀ (biColor : Bool) (interval now : ℤ) (last : Option ℤ)
        (image : RgbImage),
      (HwOp.clear ∈
          (display_image biColor interval now last (some image) noFaults).trace ↔
        (last = none ∨ ∃ t, last = some t ∧ interval ≤ now - t)) ∧
      (display_image biColor interval now last (some image) noFaults).trace =
        (if should_full_clear interval now last then
          [.init, .clear, .init, .display (if biColor then 2 else 1), .sleep]
        else
          [.init, .display (if biColor then 2 else 1), .sleep]) ∧
      (display_image biColor interval now last (some image) noFaults).lastFullClear =
        (if should_full_clear interval now last then some now else last)) ∧
    full_clear_interval_s = 3600 ∧
    render_clears 3600 none [0, 1000, 3700] = [true, false, true] := by
  refine ⟨?_, by decide, by decide⟩
  intro biColor interval now last image
  by_cases hc : should_full_clear interval now last = true
  · rw [← should_full_clear_iff]
    simp [display_image, noFaults, hc]
  · rw [← should_full_clear_iff]
    simp [display_image, noFaults, hc]

/-- C5: the resolution written during auto-discovery is normalized to
landscape: if h > w the stored pair is (h, w), if w ≥ h it is (w, h)
unchanged, and the stored width is always at least the stored height. -/
theorem C5_resolution_normalized (w h : ℕ) :
    (h > w → normalize_resolution w h = (h, w)) ∧
    (w ≥ h → normalize_resolution w h = (w, h)) ∧
    (normalize_resolution w h).1 ≥ (normalize_resolution w h).2 := by
  unfold normalize_resolution
  refine ⟨?_, ?_, ?_⟩
  · intro hgt
    rw [if_neg (by omega)]
  · intro hge
    rw [if_pos hge]
  · split <;> omega

/-- C5 witness: a portrait native report (122, 250) is stored as (250, 122)
and a landscape report (800, 480) is stored unchanged. -/
theorem C5_resolution_normalized_witness :
    (250 > 122 ∧ normalize_resolution 122 250 = (250, 122)) ∧
    (800 ≥ 480 ∧ normalize_resolution 800 480 = (800, 480)) :=
  ⟨⟨by decide, (C5_resolution_normalized 122 250).1 (by decide)⟩,
   ⟨by decide, (C5_resolution_normalized 800 480).2.1 (by decide)⟩⟩

/-- C6: when a resolution is already configured, the auto-discovery step
performs no configuration write and leaves the configured value unchanged,
whatever the panel's native width/height report. -/
theorem C6_no_overwrite_when_configured (r : ℕ × ℕ) (w h : ℕ) :
    discover_resolution (some r) w h = (some r, false) := rfl

/-- C8: a render call with a null frame fails with InvalidInput before any
hardware operation: the trace of driver calls is empty (no init, clear,
display or sleep), and the throttle state is untouched — for every fault
environment. -/
theorem C8_invalid_input_before_hardware (biColor : Bool) (interval now : ℤ)
    (last : Option ℤ) (f : FaultSpec) :
    display_image biColor interval now last none f =
      ⟨[], last, .error .InvalidInput⟩ := rfl

/-- C9: when a render performs the full clear and the subsequent frame push
fails, the recorded last-full-clear timestamp keeps the value recorded for
the successful clear (`some now`) even though the call fails. -/
theorem C9_clear_recorded_despite_display_failure (biColor : Bool)
    (interval now : ℤ) (last : Option ℤ) (image : RgbImage)
    (hclear : should_full_clear interval now last = true) :
    display_image biColor interval now last (some image)
        ⟨false, false, false, true, false⟩ =
      ⟨[.init, .clear, .init, .display (if biColor then 2 else 1)], some now,
        .error .HardwareIOFailure⟩ := by
  simp [display_image, hclear]

/-- C9 witness: first-ever render (no prior clear) whose display push fails
still records the clear timestamp. -/
theorem C9_clear_recorded_despite_display_failure_witness :
    should_full_clear 3600 0 none = true ∧
    display_image false 3600 0 none (some [[(0, 0, 0)]])
        ⟨false, false, false, true, false⟩ =
      ⟨[.init, .clear, .init, .display 1], some 0, .error .HardwareIOFailure⟩ :=
  ⟨by decide, by
    have h := C9_clear_recorded_despite_display_failure false 3600 0 none
      [[(0, 0, 0)]] (by decide)
    simpa using h⟩

/-- C10: if the full clear itself raises, or the reinitialization right
after it raises, the last-full-clear timestamp is not updated: the call
fails with the throttle state exactly as it was on entry. -/
theorem C10_failed_clear_leaves_timestamp (biColor : Bool)
    (interval now : ℤ) (last : Option ℤ) (image : RgbImage)
    (hclear : should_full_clear interval now last = true) :
    (display_image biColor interval now last (some image)
        ⟨false, true, false, false, false⟩ =
      ⟨[.init, .clear], last, .error .HardwareIOFailure⟩) ∧
    (display_image biColor interval now last (some image)
        ⟨false, false, true, false, false⟩ =
      ⟨[.init, .clear, .init], last, .error .HardwareIOFailure⟩) := by
  constructor <;> simp [display_image, hclear]

/-- C10 witness: a failing clear (and a failing post-clear reinit) on a
due render leaves the entry throttle state (`some (-3600)`) in place. -/
theorem C10_failed_clear_leaves_timestamp_witness :
    should_full_clear 3600 0 (some (-3600)) = true ∧
    display_image false 3600 0 (some (-3600)) (some [[(0, 0, 0)]])
        ⟨false, true, false, false, false⟩ =
      ⟨[.init, .clear], some (-3600), .error .HardwareIOFailure⟩ ∧
    display_image false 3600 0 (some (-3600)) (some [[(0, 0, 0)]])
        ⟨false, false, true, false, false⟩ =
      ⟨[.init, .clear, .init], some (-3600), .error .HardwareIOFailure⟩ := by
  have h := C10_failed_clear_leaves_timestamp false 3600 0 (some (-3600))
    [[(0, 0, 0)]] (by decide)
  exact ⟨by decide, h.1, h.2⟩
